import Mathlib

/-!
# voce_pidor_bot: the voice-message pipeline of `main.go`

A shallow embedding of the voice handler of the bot and of the helpers it
calls (`formatDuration`, `downloadFile`, `convertOggToWav`,
`createPythonConfig`, `recognizeSpeech`, `cleanup`, `editMessageHTML`,
`voiceMessageHandler`).

Modelling choices.

* Go `int`/`int64` values are `Int`.  The only arithmetic is `/ 60` and
  `% 60` (truncating, `Int.tdiv`/`Int.tmod`), which cannot overflow.
* The temp directory is a map from path to file size (`FS`); the code only
  ever asks whether a file exists and whether its size is zero.  Entries are
  regular files: `os.Remove` of an existing entry succeeds, `os.Remove` of a
  missing one returns a not-exist error.
* Everything the handler does to the outside world is appended, in program
  order, to a trace of `Action`s.  What the outside world answers (transport
  errors, what the download delivers, exit status and output of the external
  processes) is a `World` value, quantified over in the theorems.
* `fmt.Sprintf` with `%s`/`%d` verbs is string concatenation with `toString`.
* Texts that come from the Go libraries and not from `main.go` (the message of
  a not-exist error of `os.Stat`, the URL built by `File.Link`) follow those
  libraries; no statement below depends on them.
-/

namespace VoceBot

/-! ## Configuration and the inbound event -/

/-- The fields of the Go `Config` the pipeline reads. -/
structure Config where
  Token : String
  MaxVoiceDuration : Int
  TempDir : String
  PythonScript : String
  FFmpeg : String

/-- The fields of `tgbotapi.Update` the handler reads:
`UpdateID`, `Message.Chat.ID`, `Message.From.UserName`,
`Message.From.FirstName`, `Message.Voice.Duration`, `Message.Voice.FileID`. -/
structure Update where
  UpdateID : Int
  ChatID : Int
  UserName : String
  FirstName : String
  Duration : Int
  FileID : String

/-! ## The file system of the temp directory -/

/-- The temp directory: path to size of the regular file there, if any. -/
abbrev FS := String → Option Nat

/-- No file at all. -/
def FS.empty : FS := fun _ => none

/-- Create or overwrite the file at `p` with `n` bytes. -/
def FS.write (fs : FS) (p : String) (n : Nat) : FS :=
  fun q => if q = p then some n else fs q

/-- Unlink the file at `p`. -/
def FS.erase (fs : FS) (p : String) : FS :=
  fun q => if q = p then none else fs q

/-- Errors of the `os` package, as far as the code tells them apart
(`os.IsNotExist`). -/
inductive OsError where
  | notExist
  | other (msg : String)
  deriving DecidableEq, Repr

/-- Go `os.IsNotExist`. -/
def OsError.isNotExist : OsError → Bool
  | .notExist => true
  | .other _ => false

/-- The text `%v` prints for the error. -/
def OsError.text : OsError → String
  | .notExist => "no such file or directory"
  | .other msg => msg

/-- Go `filepath.Join(dir, name)` for a cleaned, non-root directory path and a
plain file name. -/
def filepathJoin (dir name : String) : String :=
  dir ++ "/" ++ name

/-! ## Effects -/

/-- One call to the outside world, as the code issues it. -/
inductive Action where
  /-- Call `bot.Send(tgbotapi.NewMessage(chatID, text))` with the given `ParseMode`. -/
  | sendMessage (chatID : Int) (text : String) (parseMode : String)
  /-- Call `bot.Send(tgbotapi.NewEditMessageText(chatID, messageID, text))`
  with the given `ParseMode` (the empty string when none is set). -/
  | editMessageText (chatID : Int) (messageID : Int) (text : String) (parseMode : String)
  /-- Call `bot.GetFile`. -/
  | getFile (fileID : String)
  /-- Call `os.MkdirAll`. -/
  | mkdirAll (path : String)
  /-- Call `http.Get`. -/
  | httpGet (url : String)
  /-- Call `os.Create`. -/
  | create (path : String)
  /-- Call `io.Copy` into the file at `path`, which wrote `bytes` bytes. -/
  | copy (path : String) (bytes : Nat)
  /-- Call `os.Remove`. -/
  | remove (path : String)
  /-- Call `os.WriteFile`. -/
  | writeFile (path : String)
  /-- Run `exec.Command(name, args...)` to completion. -/
  | exec (name : String) (args : List String)
  /-- Call `time.Sleep`, in milliseconds. -/
  | sleep (ms : Nat)
  /-- Call `log.Printf`. -/
  | log (line : String)
  deriving DecidableEq, Repr

/-- What `downloadFile` can meet. -/
inductive DownloadOutcome where
  /-- The call `http.Get` returned an error. -/
  | getFailed (err : String)
  /-- The call `os.Create` returned an error. -/
  | createFailed (err : String)
  /-- The call `io.Copy` returned an error after `written` bytes. -/
  | copyFailed (written : Nat) (err : String)
  /-- The whole body, `size` bytes, was written. -/
  | ok (size : Nat)
  deriving DecidableEq, Repr

/-- The answers of the outside world during one run of the handler.
An `Option String` is a Go `error`: `none` is `nil`. -/
structure World where
  /-- Error of the `bot.Send` of the initial status message. -/
  sendErr : Option String
  /-- The `MessageID` of the status message. -/
  messageID : Int
  /-- Error of `os.MkdirAll`. -/
  mkdirErr : Option String
  /-- Result of `bot.GetFile`: the `FilePath` of the file, or an error. -/
  getFile : Except String String
  /-- What the download meets. -/
  download : DownloadOutcome
  /-- Error of `cmd.CombinedOutput()` of the transcoder (non-zero exit). -/
  ffmpegErr : Option String
  /-- Combined output of the transcoder. -/
  ffmpegOutput : String
  /-- Size of the output file the transcoder leaves, `none` if it writes none. -/
  ffmpegWrites : Option Nat
  /-- Error of `os.WriteFile` of the recognizer's config. -/
  configWriteErr : Option String
  /-- Size of the JSON config. -/
  configSize : Nat
  /-- Error of `cmd.Run()` of the recognizer (non-zero exit). -/
  pythonErr : Option String
  /-- Standard output of the recognizer. -/
  pythonStdout : String
  /-- Standard error of the recognizer. -/
  pythonStderr : String
  /-- Error of an edit of the status message, by text and parse mode. -/
  editErr : String → String → Option String

/-- The state threaded through the code: the temp directory and the calls
made so far. -/
structure St where
  fs : FS
  trace : List Action

/-- Record one call. -/
def St.emit (s : St) (a : Action) : St :=
  { s with trace := s.trace ++ [a] }

/-- Go `os.Remove(p)`. -/
def osRemove (s : St) (p : String) : St × Option OsError :=
  match s.fs p with
  | some _ => ({ fs := s.fs.erase p, trace := s.trace ++ [Action.remove p] }, none)
  | none => (s.emit (Action.remove p), some OsError.notExist)

/-! ## `formatDuration` -/

/-- Go `formatDuration`. -/
def formatDuration (seconds : Int) : String :=
  if seconds < 60 then
    toString seconds ++ " сек"
  else
    let minutes := seconds.tdiv 60
    let remainingSeconds := seconds.tmod 60
    if remainingSeconds = 0 then
      toString minutes ++ " мин"
    else
      toString minutes ++ " мин " ++ toString remainingSeconds ++ " сек"

/-! ## Helpers of the handler -/

/-- Go `editMessageHTML`: one edit of the status message with
`ParseMode = "HTML"`; returns the error of `bot.Send`. -/
def editMessageHTML (w : World) (s : St) (chatID messageID : Int) (text : String) :
    St × Option String :=
  (s.emit (Action.editMessageText chatID messageID text "HTML"), w.editErr text "HTML")

/-- Go `downloadFile`. -/
def downloadFile (w : World) (s : St) (filepath url : String) : St × Option String :=
  let s := s.emit (Action.httpGet url)
  match w.download with
  | .getFailed e => (s, some e)
  | .createFailed e => (s.emit (Action.create filepath), some e)
  | .copyFailed n e =>
    ({ fs := (s.fs.write filepath 0).write filepath n,
       trace := s.trace ++ [Action.create filepath, Action.copy filepath n] }, some e)
  | .ok n =>
    ({ fs := (s.fs.write filepath 0).write filepath n,
       trace := s.trace ++ [Action.create filepath, Action.copy filepath n] }, none)

/-- Go `convertOggToWav`. -/
def convertOggToWav (cfg : Config) (w : World) (s : St) (oggPath wavPath : String) :
    St × Option String :=
  match s.fs oggPath with
  | none => (s, some ("OGG файл не существует: " ++ oggPath))
  | some _ =>
    let s := s.emit (Action.exec cfg.FFmpeg
      ["-i", oggPath, "-ar", "16000", "-ac", "1", "-c:a", "pcm_s16le", "-y", wavPath])
    let s : St :=
      match w.ffmpegWrites with
      | some n => { s with fs := s.fs.write wavPath n }
      | none => s
    match w.ffmpegErr with
    | some e => (s, some ("ошибка FFmpeg: " ++ e ++ "\nOutput: " ++ w.ffmpegOutput))
    | none =>
      match s.fs wavPath with
      | none => (s, some "FFmpeg не создал выходной файл")
      | some 0 => (s, some "FFmpeg создал пустой файл")
      | some (_ + 1) => (s, none)

/-- Go `createPythonConfig` (`json.MarshalIndent` of a map of strings, bools
and ints does not fail). -/
def createPythonConfig (cfg : Config) (w : World) (s : St) : St × Option String :=
  let configPath := filepathJoin cfg.TempDir "config.json"
  let s := s.emit (Action.log ("Creating Python config at: " ++ configPath))
  let s := s.emit (Action.writeFile configPath)
  match w.configWriteErr with
  | some e => (s, some ("ошибка записи JSON конфига: " ++ e))
  | none =>
    let s : St := { s with fs := s.fs.write configPath w.configSize }
    match s.fs configPath with
    | none => (s, some ("конфиг не был создан: stat " ++ configPath ++ ": no such file or directory"))
    | some _ => (s.emit (Action.log "Python config created successfully"), none)

/-- The interpreter path hard-coded in `recognizeSpeech`. -/
def pythonExe : String :=
  "C:\\Users\\serve\\AppData\\Local\\Programs\\Python\\Python310\\python.exe"

/-- Go `recognizeSpeech`. -/
def recognizeSpeech (cfg : Config) (w : World) (s : St) (wavPath : String) :
    St × Except String String :=
  match s.fs wavPath with
  | none => (s, Except.error ("WAV файл не существует перед запуском Python: " ++ wavPath))
  | some _ =>
    match createPythonConfig cfg w s with
    | (s, some e) => (s, Except.error ("ошибка создания конфига для Python: " ++ e))
    | (s, none) =>
      let s := s.emit (Action.log ("Начинаю распознавание речи из файла: " ++ wavPath))
      let s := s.emit (Action.exec pythonExe ["-X", "utf8", cfg.PythonScript, wavPath])
      let s := if w.pythonStderr ≠ "" then s.emit (Action.log ("Stderr: " ++ w.pythonStderr)) else s
      match w.pythonErr with
      | some e => (s, Except.error ("Ошибка при распознавании речи: " ++ e))
      | none => (s, Except.ok w.pythonStdout)

/-- Go `cleanup`: the two fixed names, `voice.wav` first. -/
def cleanup (cfg : Config) (s : St) : St :=
  let files := [filepathJoin cfg.TempDir "voice.wav", filepathJoin cfg.TempDir "voice.ogg"]
  files.foldl
    (fun s file =>
      match osRemove s file with
      | (s, some err) =>
        if !err.isNotExist then
          s.emit (Action.log ("Ошибка при удалении файла " ++ file ++ ": " ++ err.text))
        else s
      | (s, none) => s)
    s

/-! ## The texts of the status message -/

/-- The text sent for a voice message that is too long. -/
def rejectText (max duration : Int) : String :=
  "⚠️ <b>Слишком длинное голосовое сообщение</b>\n\n" ++
  "Максимальная длительность: " ++ formatDuration max ++ "\n" ++
  "Ваше сообщение: " ++ formatDuration duration

/-- The five progress texts share their first three lines and differ in the
last one, `phase`. -/
def statusText (username : String) (duration : Int) (phase : String) : String :=
  "🎤 <b>Распознаю голосовое сообщение</b>\n👤 От: @" ++ username ++
  "\n⏱ Длительность: " ++ formatDuration duration ++ "\n\n" ++ phase

/-- The HTML text of a recognized result, `response` in the source. -/
def responseText (username : String) (duration : Int) (text : String) : String :=
  "✅ <b>Распознанный текст</b>\n👤 От: @" ++ username ++
  "\n⏱ Длительность: " ++ formatDuration duration ++ "\n\n" ++ text

/-- The plain text of a recognized result, `plainResponse` in the source. -/
def plainResponseText (username : String) (duration : Int) (text : String) : String :=
  "✅ Распознанный текст\nОт: @" ++ username ++
  "\nДлительность: " ++ formatDuration duration ++ "\n\n" ++ text

/-- Go `File.Link(token)` of the transport library. -/
def fileLink (token filePath : String) : String :=
  "https://api.telegram.org/file/bot" ++ token ++ "/" ++ filePath

/-! ## `voiceMessageHandler` -/

/-- Go `voiceMessageHandler`.  Every `return` of the source is a leaf of this
term; the value is the state at that `return`. -/
def voiceMessageHandler (cfg : Config) (w : World) (update : Update) (s : St) : St :=
  let username := if update.UserName = "" then update.FirstName else update.UserName
  let chatID := update.ChatID
  let duration := update.Duration
  if duration > cfg.MaxVoiceDuration then
    s.emit (Action.sendMessage chatID (rejectText cfg.MaxVoiceDuration duration) "HTML")
  else
  let s := s.emit (Action.sendMessage chatID
    (statusText username duration "<i>Пожалуйста, подождите...</i>") "HTML")
  match w.sendErr with
  | some e => s.emit (Action.log ("Ошибка при отправке сообщения: " ++ e))
  | none =>
  let messageID := w.messageID
  let s := s.emit (Action.mkdirAll cfg.TempDir)
  match w.mkdirErr with
  | some e =>
    let s := s.emit (Action.log ("Ошибка при создании временной директории: " ++ e))
    (editMessageHTML w s chatID messageID
      "❌ <b>Ошибка при создании временной директории</b>").1
  | none =>
  let s := s.emit (Action.getFile update.FileID)
  match w.getFile with
  | Except.error e =>
    let s := s.emit (Action.log ("Ошибка при получении файла: " ++ e))
    (editMessageHTML w s chatID messageID
      "❌ <b>Ошибка при получении голосового сообщения</b>").1
  | Except.ok filePath =>
  let s := s.emit (Action.sleep 300)
  let s := (editMessageHTML w s chatID messageID
    (statusText username duration "⏳ <i>Загружаю голосовое сообщение...</i>")).1
  let oggPath := filepathJoin cfg.TempDir "voice.ogg"
  match downloadFile w s oggPath (fileLink cfg.Token filePath) with
  | (s, some e) =>
    let s := s.emit (Action.log ("Ошибка при загрузке файла: " ++ e))
    (editMessageHTML w s chatID messageID
      "❌ <b>Ошибка при загрузке голосового сообщения</b>").1
  | (s, none) =>
  match s.fs oggPath with
  | none =>
    let s := s.emit (Action.log
      ("OGG файл не существует после загрузки: stat " ++ oggPath ++ ": no such file or directory"))
    (editMessageHTML w s chatID messageID
      "❌ <b>Ошибка при сохранении голосового сообщения</b>").1
  | some 0 =>
    let s := s.emit (Action.log "Загружен пустой OGG файл")
    let s := (editMessageHTML w s chatID messageID "❌ <b>Получен пустой файл</b>").1
    (osRemove s oggPath).1
  | some (_ + 1) =>
  let s := s.emit (Action.sleep 300)
  let s := (editMessageHTML w s chatID messageID
    (statusText username duration "🔄 <i>Конвертирую аудио...</i>")).1
  let wavPath := filepathJoin cfg.TempDir "voice.wav"
  match convertOggToWav cfg w s oggPath wavPath with
  | (s, some e) =>
    let s := s.emit (Action.log ("Ошибка при конвертации файла: " ++ e))
    let s := (editMessageHTML w s chatID messageID
      "❌ <b>Ошибка при конвертации голосового сообщения</b>").1
    (osRemove s oggPath).1
  | (s, none) =>
  let s := (osRemove s oggPath).1
  match s.fs wavPath with
  | none =>
    let s := s.emit (Action.log
      ("WAV файл не существует после конвертации: stat " ++ wavPath ++ ": no such file or directory"))
    (editMessageHTML w s chatID messageID "❌ <b>Ошибка при подготовке аудио</b>").1
  | some 0 =>
    let s := s.emit (Action.log "WAV файл пустой после конвертации")
    let s := (editMessageHTML w s chatID messageID "❌ <b>Ошибка при конвертации аудио</b>").1
    (osRemove s wavPath).1
  | some (_ + 1) =>
  let s := s.emit (Action.sleep 300)
  let s := (editMessageHTML w s chatID messageID
    (statusText username duration "💫 <i>Загружаю модель Whisper (small)...</i>")).1
  let s := s.emit (Action.sleep 300)
  let s := (editMessageHTML w s chatID messageID
    (statusText username duration "🔍 <i>Распознаю речь...</i>")).1
  match recognizeSpeech cfg w s wavPath with
  | (s, Except.error e) =>
    let s := s.emit (Action.log ("Ошибка при распознавании речи: " ++ e))
    let s := (editMessageHTML w s chatID messageID "❌ <b>Ошибка при распознавании речи</b>").1
    (osRemove s wavPath).1
  | (s, Except.ok text) =>
  let s : St :=
    if text = "" then
      (editMessageHTML w s chatID messageID "❌ <b>Не удалось распознать текст</b>").1
    else
      let response := responseText username duration text
      match editMessageHTML w s chatID messageID response with
      | (s, none) => s
      | (s, some e) =>
        let s := s.emit (Action.log ("Ошибка при отправке результата: " ++ e))
        let plainResponse := plainResponseText username duration text
        let s := s.emit (Action.editMessageText chatID messageID plainResponse "")
        match w.editErr plainResponse "" with
        | some e => s.emit (Action.log ("Ошибка при отправке plain текста: " ++ e))
        | none => s
  (osRemove s wavPath).1

/-! ## Reading a trace -/

/-- The edits of the status message in a trace, as (text, parse mode), in
the order sent. -/
def edits : List Action → List (String × String)
  | [] => []
  | Action.editMessageText _ _ text mode :: rest => (text, mode) :: edits rest
  | _ :: rest => edits rest

/-- Whether the list of characters `t` occurs in `s` as a contiguous block. -/
def containsText (s t : String) : Prop :=
  t.data <:+: s.data

/-- Every edit of the list is sent with parse mode HTML. -/
def htmlOnly (l : List (String × String)) : Prop :=
  ∀ e ∈ l, e.2 = "HTML"

/-- Whether a call on the file system or an external process names only the
fixed paths of the temp directory. -/
def Action.usesFixedPaths (cfg : Config) : Action → Prop
  | Action.create p => p = filepathJoin cfg.TempDir "voice.ogg"
  | Action.copy p _ => p = filepathJoin cfg.TempDir "voice.ogg"
  | Action.remove p =>
      p = filepathJoin cfg.TempDir "voice.ogg" ∨ p = filepathJoin cfg.TempDir "voice.wav"
  | Action.writeFile p => p = filepathJoin cfg.TempDir "config.json"
  | Action.exec name args =>
      (name = cfg.FFmpeg ∧
        args = ["-i", filepathJoin cfg.TempDir "voice.ogg", "-ar", "16000", "-ac", "1",
          "-c:a", "pcm_s16le", "-y", filepathJoin cfg.TempDir "voice.wav"]) ∨
      (name = pythonExe ∧
        args = ["-X", "utf8", cfg.PythonScript, filepathJoin cfg.TempDir "voice.wav"])
  | _ => True

/-! ## The calls of a run, by stage -/

/-- The calls of `recognizeSpeech` when the config is written. -/
def recognizeCalls (cfg : Config) (w : World) (wavPath : String) : List Action :=
  [Action.log ("Creating Python config at: " ++ filepathJoin cfg.TempDir "config.json"),
   Action.writeFile (filepathJoin cfg.TempDir "config.json"),
   Action.log "Python config created successfully",
   Action.log ("Начинаю распознавание речи из файла: " ++ wavPath),
   Action.exec pythonExe ["-X", "utf8", cfg.PythonScript, wavPath]] ++
  (if w.pythonStderr ≠ "" then [Action.log ("Stderr: " ++ w.pythonStderr)] else [])

/-- The name shown in the status message. -/
def Update.username (update : Update) : String :=
  if update.UserName = "" then update.FirstName else update.UserName

/-- The calls of the handler from the initial status message to the last
progress edit, on a run where every step up to the conversion succeeds. -/
def progressCalls (cfg : Config) (w : World) (update : Update) (fp : String) (n : Nat) :
    List Action :=
  [Action.sendMessage update.ChatID
     (statusText update.username update.Duration "<i>Пожалуйста, подождите...</i>") "HTML",
   Action.mkdirAll cfg.TempDir,
   Action.getFile update.FileID,
   Action.sleep 300,
   Action.editMessageText update.ChatID w.messageID
     (statusText update.username update.Duration "⏳ <i>Загружаю голосовое сообщение...</i>") "HTML",
   Action.httpGet (fileLink cfg.Token fp),
   Action.create (filepathJoin cfg.TempDir "voice.ogg"),
   Action.copy (filepathJoin cfg.TempDir "voice.ogg") n,
   Action.sleep 300,
   Action.editMessageText update.ChatID w.messageID
     (statusText update.username update.Duration "🔄 <i>Конвертирую аудио...</i>") "HTML",
   Action.exec cfg.FFmpeg
     ["-i", filepathJoin cfg.TempDir "voice.ogg", "-ar", "16000", "-ac", "1",
      "-c:a", "pcm_s16le", "-y", filepathJoin cfg.TempDir "voice.wav"],
   Action.remove (filepathJoin cfg.TempDir "voice.ogg"),
   Action.sleep 300,
   Action.editMessageText update.ChatID w.messageID
     (statusText update.username update.Duration "💫 <i>Загружаю модель Whisper (small)...</i>") "HTML",
   Action.sleep 300,
   Action.editMessageText update.ChatID w.messageID
     (statusText update.username update.Duration "🔍 <i>Распознаю речь...</i>") "HTML"]

/-- The temp directory right after the transcoder ran, on a run where the
download delivered `n` bytes. -/
def convertedFS (cfg : Config) (w : World) (n : Nat) (fs : FS) : FS :=
  match w.ffmpegWrites with
  | some k =>
    ((fs.write (filepathJoin cfg.TempDir "voice.ogg") 0).write
      (filepathJoin cfg.TempDir "voice.ogg") n).write (filepathJoin cfg.TempDir "voice.wav") k
  | none =>
    (fs.write (filepathJoin cfg.TempDir "voice.ogg") 0).write
      (filepathJoin cfg.TempDir "voice.ogg") n

/-- The calls that deliver the recognizer's output `text`. -/
def deliveryCalls (w : World) (update : Update) (text : String) : List Action :=
  if text = "" then
    [Action.editMessageText update.ChatID w.messageID "❌ <b>Не удалось распознать текст</b>" "HTML"]
  else
    Action.editMessageText update.ChatID w.messageID
      (responseText update.username update.Duration text) "HTML" ::
    match w.editErr (responseText update.username update.Duration text) "HTML" with
    | none => []
    | some e =>
      Action.log ("Ошибка при отправке результата: " ++ e) ::
      Action.editMessageText update.ChatID w.messageID
        (plainResponseText update.username update.Duration text) "" ::
      match w.editErr (plainResponseText update.username update.Duration text) "" with
      | some e => [Action.log ("Ошибка при отправке plain текста: " ++ e)]
      | none => []

/-- The two facts about every run that the claims on paths and on plain-text
retries rest on. -/
def Shape (cfg : Config) (w : World) (update : Update) (r : St) : Prop :=
  (∀ a ∈ r.trace, a.usesFixedPaths cfg) ∧
  (htmlOnly (edits r.trace) ∨
    ∃ pre, htmlOnly pre ∧
      (w.editErr (responseText update.username update.Duration w.pythonStdout) "HTML").isSome ∧
      edits r.trace = pre ++
        [(responseText update.username update.Duration w.pythonStdout, "HTML"),
         (plainResponseText update.username update.Duration w.pythonStdout, "")])

/-- A transcript is blank when every character of it is white space: it is
empty after trimming. -/
def isBlank (text : String) : Bool :=
  text.data.all Char.isWhitespace

/-! ## Decimal numerals -/

/-- The decimal digits of `n`, most significant first, as characters;
`"0"` for zero. -/
def decimalChars (n : Nat) : List Char :=
  if n = 0 then ['0'] else ((Nat.digits 10 n).reverse).map Nat.digitChar

/-- The value of a decimal digit character. -/
def digitVal (c : Char) : Nat := c.toNat - 48

/-- Read a list of decimal digit characters back as a number. -/
def decodeNat (l : List Char) : Nat :=
  Nat.ofDigits 10 ((l.map digitVal).reverse)

/-! ## Concrete inputs -/

/-- A configuration with a limit of 30 seconds. -/
def cfgDemo : Config :=
  { Token := "T", MaxVoiceDuration := 30, TempDir := "/tmp/voice",
    PythonScript := "/app/recognize.py", FFmpeg := "/usr/bin/ffmpeg" }

/-- A voice message of 10 seconds. -/
def updDemo : Update :=
  { UpdateID := 1, ChatID := 7, UserName := "ann", FirstName := "Ann",
    Duration := 10, FileID := "F1" }

/-- A second voice message, from another chat, with another update id and
another file. -/
def updOther : Update :=
  { UpdateID := 2, ChatID := 8, UserName := "", FirstName := "Bob",
    Duration := 12, FileID := "F2" }

/-- A voice message of 45 seconds. -/
def updLong : Update :=
  { UpdateID := 3, ChatID := 7, UserName := "ann", FirstName := "Ann",
    Duration := 45, FileID := "F3" }

/-- A world in which every step succeeds and the recognizer prints
"привет". -/
def worldOk : World :=
  { sendErr := none, messageID := 5, mkdirErr := none,
    getFile := Except.ok "voice/file_1.oga",
    download := DownloadOutcome.ok 100, ffmpegErr := none, ffmpegOutput := "",
    ffmpegWrites := some 200, configWriteErr := none, configSize := 50,
    pythonErr := none, pythonStdout := "привет", pythonStderr := "",
    editErr := fun _ _ => none }

/-- A world like `worldOk` in which every HTML edit is refused and every
plain edit accepted. -/
def worldHtmlRefused : World :=
  { worldOk with editErr := fun _ mode => if mode = "HTML" then some "Bad Request" else none }

/-- The temp directory with neither `voice.ogg` nor `voice.wav`. -/
def stEmpty : St := { fs := FS.empty, trace := [] }

/-! ## `formatDuration`: the three shapes, and injectivity -/

theorem formatDuration_natCast (n : Nat) :
    formatDuration (n : Int) =
      if n < 60 then toString n ++ " сек"
      else if n % 60 = 0 then toString (n / 60) ++ " мин"
      else toString (n / 60) ++ " мин " ++ toString (n % 60) ++ " сек" := by
  unfold formatDuration
  have h1 : ((n : Int) < 60) ↔ n < 60 := by omega
  have h2 : (n : Int).tmod 60 = ((n % 60 : Nat) : Int) := (Int.ofNat_tmod n 60).symm
  have h3 : (n : Int).tdiv 60 = ((n / 60 : Nat) : Int) := (Int.ofNat_tdiv n 60).symm
  have h4 : (((n % 60 : Nat) : Int) = 0) ↔ n % 60 = 0 := by omega
  simp only [h1, h2, h3, h4]
  rfl

/-- C9: for a non-negative number of seconds `s`, with `m = s / 60` and
`r = s mod 60`, formatDuration renders `s` followed by " сек" when `m = 0`,
`m` followed by " мин" when `m ≥ 1` and `r = 0`, and `m` " мин " `r` " сек"
otherwise (numbers in decimal, as `%d` prints them). -/
theorem C9_formatDuration_cases (s : Int) (hs : 0 ≤ s) :
    (s / 60 = 0 → formatDuration s = toString s ++ " сек") ∧
    (1 ≤ s / 60 → s % 60 = 0 → formatDuration s = toString (s / 60) ++ " мин") ∧
    (1 ≤ s / 60 → s % 60 ≠ 0 →
      formatDuration s = toString (s / 60) ++ " мин " ++ toString (s % 60) ++ " сек") := by
  obtain ⟨n, rfl⟩ := Int.eq_ofNat_of_zero_le hs
  rw [formatDuration_natCast]
  have e1 : (n : Int) / 60 = ((n / 60 : Nat) : Int) := by omega
  have e2 : (n : Int) % 60 = ((n % 60 : Nat) : Int) := by omega
  rw [e1, e2]
  refine ⟨fun h => ?_, fun h h' => ?_, fun h h' => ?_⟩
  · have : n < 60 := by omega
    simp [this]; rfl
  · have h1 : ¬ n < 60 := by omega
    have h2 : n % 60 = 0 := by omega
    simp [h1, h2]; rfl
  · have h1 : ¬ n < 60 := by omega
    have h2 : ¬ n % 60 = 0 := by omega
    simp [h1, h2]; rfl

/-- C9 at 45 and 30 seconds (first shape), 120 (second) and 125 (third). -/
theorem C9_formatDuration_cases_witness :
    (0 : Int) ≤ 45 ∧ formatDuration 45 = "45 сек" ∧ formatDuration 30 = "30 сек" ∧
    formatDuration 120 = "2 мин" ∧ formatDuration 125 = "2 мин 5 сек" :=
  ⟨by decide,
   (C9_formatDuration_cases 45 (by decide)).1 (by decide),
   (C9_formatDuration_cases 30 (by decide)).1 (by decide),
   (C9_formatDuration_cases 120 (by decide)).2.1 (by decide) (by decide),
   (C9_formatDuration_cases 125 (by decide)).2.2 (by decide) (by decide)⟩

theorem digitVal_digitChar (d : Nat) (h : d < 10) : digitVal (Nat.digitChar d) = d := by
  interval_cases d <;> rfl

theorem digitChar_ne_space (d : Nat) (h : d < 10) : Nat.digitChar d ≠ ' ' := by
  interval_cases d <;> decide

theorem decimalChars_step (n : Nat) (h : n / 10 ≠ 0) :
    decimalChars n = decimalChars (n / 10) ++ [Nat.digitChar (n % 10)] := by
  have hn : 0 < n := by omega
  have hn0 : n ≠ 0 := by omega
  simp only [decimalChars, hn0, h, if_false]
  rw [Nat.digits_def' (by decide) hn]
  simp

theorem toDigitsCore_eq (fuel : Nat) : ∀ (n : Nat) (ds : List Char), n < fuel →
    Nat.toDigitsCore 10 fuel n ds = decimalChars n ++ ds := by
  induction fuel with
  | zero => intro n ds h; omega
  | succ fuel ih =>
    intro n ds h
    simp only [Nat.toDigitsCore]
    by_cases h0 : n / 10 = 0
    · simp only [h0, if_true]
      have hlt : n < 10 := by omega
      have hm : n % 10 = n := Nat.mod_eq_of_lt hlt
      rw [hm]
      by_cases hz : n = 0
      · subst hz; rfl
      · have : Nat.digits 10 n = [n] := Nat.digits_of_lt 10 n hz hlt
        simp [decimalChars, hz, this]
    · simp only [h0, if_false]
      rw [ih (n / 10) _ (by omega), decimalChars_step n h0]
      simp

theorem toString_data (n : Nat) : (toString n).data = decimalChars n := by
  show (Nat.repr n).data = _
  simp only [Nat.repr, Nat.toDigits, List.asString]
  rw [toDigitsCore_eq (n + 1) n [] (by omega)]
  simp

theorem decimalChars_no_space (n : Nat) : ' ' ∉ decimalChars n := by
  unfold decimalChars
  split
  · decide
  · intro h
    obtain ⟨d, hd, he⟩ := List.mem_map.mp h
    exact digitChar_ne_space d (Nat.digits_lt_base (by decide) (List.mem_reverse.mp hd)) he

theorem decodeNat_decimalChars (n : Nat) : decodeNat (decimalChars n) = n := by
  unfold decimalChars decodeNat
  split
  · subst_vars; rfl
  · rw [List.map_map]
    have : List.map (digitVal ∘ Nat.digitChar) (Nat.digits 10 n).reverse = (Nat.digits 10 n).reverse := by
      conv_rhs => rw [← List.map_id (Nat.digits 10 n).reverse]
      apply List.map_congr_left
      intro d hd
      exact digitVal_digitChar d (Nat.digits_lt_base (by decide) (List.mem_reverse.mp hd))
    rw [this, List.reverse_reverse, Nat.ofDigits_digits]

theorem decimalChars_injective {a b : Nat} (h : decimalChars a = decimalChars b) : a = b := by
  have := congrArg decodeNat h
  rwa [decodeNat_decimalChars, decodeNat_decimalChars] at this

theorem append_space_inj : ∀ (l₁ l₂ r₁ r₂ : List Char), ' ' ∉ l₁ → ' ' ∉ l₂ →
    l₁ ++ ' ' :: r₁ = l₂ ++ ' ' :: r₂ → l₁ = l₂ ∧ r₁ = r₂
  | [], [], _, _, _, _, h => by simpa using h
  | [], c :: l₂, _, _, _, h₂, h => by
    simp at h
    exact absurd (List.mem_cons.mpr (Or.inl h.1)) h₂
  | c :: l₁, [], _, _, h₁, _, h => by
    simp at h
    exact absurd (List.mem_cons.mpr (Or.inl h.1.symm)) h₁
  | c :: l₁, d :: l₂, r₁, r₂, h₁, h₂, h => by
    simp at h
    have := append_space_inj l₁ l₂ r₁ r₂ (fun hx => h₁ (List.mem_cons_of_mem _ hx))
      (fun hx => h₂ (List.mem_cons_of_mem _ hx)) h.2
    simp [h.1, this.1, this.2]


theorem formatDuration_data (n : Nat) :
    (formatDuration (n : Int)).data =
      if n < 60 then decimalChars n ++ [' ', 'с', 'е', 'к']
      else if n % 60 = 0 then decimalChars (n / 60) ++ [' ', 'м', 'и', 'н']
      else decimalChars (n / 60) ++ ' ' :: ('м' :: 'и' :: 'н' :: ' ' ::
        (decimalChars (n % 60) ++ [' ', 'с', 'е', 'к'])) := by
  rw [formatDuration_natCast]
  split
  · simp [String.data_append, toString_data]
  · split
    · simp [String.data_append, toString_data]
    · simp [String.data_append, toString_data]

theorem formatDuration_nat_injective (a b : Nat)
    (h : formatDuration (a : Int) = formatDuration (b : Int)) : a = b := by
  have hd := congrArg String.data h
  rw [formatDuration_data, formatDuration_data] at hd
  have sa := decimalChars_no_space
  by_cases ha : a < 60 <;> by_cases hb : b < 60 <;>
    by_cases ha' : a % 60 = 0 <;> by_cases hb' : b % 60 = 0 <;>
    simp only [ha, hb, ha', hb', if_true, if_false] at hd <;>
    obtain ⟨h1, h2⟩ := append_space_inj _ _ _ _ (sa _) (sa _) hd
  all_goals first
    | exact decimalChars_injective h1
    | (exfalso; simp at h2; done)
    | skip
  · have := decimalChars_injective h1
    omega
  · have hq := decimalChars_injective h1
    simp only [List.cons.injEq, true_and] at h2
    have hr := decimalChars_injective (List.append_cancel_right h2)
    omega

/-- C10: formatDuration is injective on the non-negative integers: two
non-negative durations are rendered as the same text exactly when they are
equal; in particular a limit and a strictly longer observed duration, as shown
in a rejection message, are never rendered as the same text. -/
theorem C10_formatDuration_injective (a b : Int) (ha : 0 ≤ a) (hb : 0 ≤ b) :
    (formatDuration a = formatDuration b ↔ a = b) ∧
    (a < b → formatDuration a ≠ formatDuration b) := by
  obtain ⟨m, rfl⟩ := Int.eq_ofNat_of_zero_le ha
  obtain ⟨n, rfl⟩ := Int.eq_ofNat_of_zero_le hb
  have key : formatDuration (m : Int) = formatDuration (n : Int) → (m : Int) = n :=
    fun h => congrArg Nat.cast (formatDuration_nat_injective m n h)
  refine ⟨⟨key, fun h => by rw [h]⟩, fun hlt h => ?_⟩
  have := key h
  omega

/-- C10 at the limit 30 and the observed duration 45. -/
theorem C10_formatDuration_injective_witness :
    (0 : Int) ≤ 30 ∧ (0 : Int) ≤ 45 ∧ formatDuration 30 ≠ formatDuration 45 :=
  ⟨by decide, by decide,
   (C10_formatDuration_injective 30 45 (by decide) (by decide)).2 (by decide)⟩


/-! ## Runs of the handler -/

theorem ogg_ne_wav (d : String) : filepathJoin d "voice.ogg" ≠ filepathJoin d "voice.wav" := by
  intro h
  have := congrArg String.data h
  simp [filepathJoin] at this

theorem wav_ne_ogg (d : String) : filepathJoin d "voice.wav" ≠ filepathJoin d "voice.ogg" :=
  fun h => ogg_ne_wav d h.symm

theorem config_ne_wav (d : String) :
    filepathJoin d "config.json" ≠ filepathJoin d "voice.wav" := by
  intro h
  have := congrArg String.data h
  simp [filepathJoin] at this

theorem wav_ne_config (d : String) :
    filepathJoin d "voice.wav" ≠ filepathJoin d "config.json" :=
  fun h => config_ne_wav d h.symm

theorem config_ne_ogg (d : String) :
    filepathJoin d "config.json" ≠ filepathJoin d "voice.ogg" := by
  intro h
  have := congrArg String.data h
  simp [filepathJoin] at this

theorem ogg_ne_config (d : String) :
    filepathJoin d "voice.ogg" ≠ filepathJoin d "config.json" :=
  fun h => config_ne_ogg d h.symm

theorem edits_append (a b : List Action) : edits (a ++ b) = edits a ++ edits b := by
  induction a with
  | nil => rfl
  | cons x xs ih => cases x <;> simp [edits, ih]

theorem recognizeSpeech_run (cfg : Config) (w : World) (s : St) (wavPath : String)
    (hk : (s.fs wavPath).isSome = true) (hc : w.configWriteErr = none) :
    recognizeSpeech cfg w s wavPath =
      ({ fs := s.fs.write (filepathJoin cfg.TempDir "config.json") w.configSize,
         trace := s.trace ++ recognizeCalls cfg w wavPath },
       match w.pythonErr with
       | some e => Except.error ("Ошибка при распознавании речи: " ++ e)
       | none => Except.ok w.pythonStdout) := by
  obtain ⟨k, hk⟩ := Option.isSome_iff_exists.mp hk
  by_cases hs : w.pythonStderr = "" <;> cases hp : w.pythonErr <;>
    simp [recognizeSpeech, createPythonConfig, recognizeCalls, hk, hc, hs, hp, St.emit, FS.write]


/-- The run up to the recognizer, when every step up to and including the
conversion succeeds and the config is written: the state at the `return`
taken after `recognizeSpeech`. -/
theorem run_converted (cfg : Config) (w : World) (update : Update) (fs : FS)
    (fp : String) (n m : Nat)
    (h0 : ¬ update.Duration > cfg.MaxVoiceDuration)
    (h1 : w.sendErr = none) (h2 : w.mkdirErr = none) (h3 : w.getFile = Except.ok fp)
    (h4 : w.download = DownloadOutcome.ok (n + 1))
    (h5 : w.ffmpegErr = none)
    (h6 : convertedFS cfg w (n + 1) fs (filepathJoin cfg.TempDir "voice.wav") = some (m + 1))
    (h7 : w.configWriteErr = none) :
    voiceMessageHandler cfg w update { fs := fs, trace := [] } =
      { fs := ((((convertedFS cfg w (n + 1) fs).erase
                (filepathJoin cfg.TempDir "voice.ogg")).write
                (filepathJoin cfg.TempDir "config.json") w.configSize).erase
                (filepathJoin cfg.TempDir "voice.wav")),
        trace := progressCalls cfg w update fp (n + 1) ++
          (recognizeCalls cfg w (filepathJoin cfg.TempDir "voice.wav") ++
          ((match w.pythonErr with
            | some e =>
              [Action.log ("Ошибка при распознавании речи: " ++
                ("Ошибка при распознавании речи: " ++ e)),
               Action.editMessageText update.ChatID w.messageID
                 "❌ <b>Ошибка при распознавании речи</b>" "HTML"]
            | none => deliveryCalls w update w.pythonStdout) ++
          [Action.remove (filepathJoin cfg.TempDir "voice.wav")])) } := by
  have h6' : (match w.ffmpegWrites with
      | some k => some k
      | none => fs (filepathJoin cfg.TempDir "voice.wav")) = some (m + 1) := by
    cases h6w : w.ffmpegWrites <;>
      simp [convertedFS, h6w, FS.write, wav_ne_ogg] at h6 <;> simp [h6]
  cases h6w : w.ffmpegWrites <;> simp only [h6w] at h6' <;>
    cases h8 : w.pythonErr <;>
    by_cases h9 : w.pythonStdout = "" <;>
    cases he : w.editErr (responseText update.username update.Duration w.pythonStdout) "HTML" <;>
    cases hp : w.editErr (plainResponseText update.username update.Duration w.pythonStdout) "" <;>
    simp only [Update.username] at he hp <;>
    simp [voiceMessageHandler, h0, h1, h2, h3, h4, h5, h6', h6w, h7, h8, h9, he, hp, St.emit,
      editMessageHTML, downloadFile, convertOggToWav, recognizeSpeech_run, osRemove, FS.write,
      FS.erase, ogg_ne_wav, wav_ne_ogg, config_ne_wav, wav_ne_config, progressCalls,
      deliveryCalls, convertedFS, Update.username]

theorem edits_progressCalls (cfg : Config) (w : World) (update : Update) (fp : String) (n : Nat) :
    edits (progressCalls cfg w update fp n) =
      [(statusText update.username update.Duration "⏳ <i>Загружаю голосовое сообщение...</i>", "HTML"),
       (statusText update.username update.Duration "🔄 <i>Конвертирую аудио...</i>", "HTML"),
       (statusText update.username update.Duration "💫 <i>Загружаю модель Whisper (small)...</i>", "HTML"),
       (statusText update.username update.Duration "🔍 <i>Распознаю речь...</i>", "HTML")] := by
  simp [progressCalls, edits]

theorem edits_recognizeCalls (cfg : Config) (w : World) (p : String) :
    edits (recognizeCalls cfg w p) = [] := by
  by_cases h : w.pythonStderr = "" <;> simp [recognizeCalls, edits, h]

theorem edits_deliveryCalls (w : World) (update : Update) (text : String) :
    edits (deliveryCalls w update text) =
      if text = "" then [("❌ <b>Не удалось распознать текст</b>", "HTML")]
      else (responseText update.username update.Duration text, "HTML") ::
        (match w.editErr (responseText update.username update.Duration text) "HTML" with
         | none => []
         | some _ => [(plainResponseText update.username update.Duration text, "")]) := by
  by_cases h : text = ""
  · simp [deliveryCalls, edits, h]
  · cases he : w.editErr (responseText update.username update.Duration text) "HTML" <;>
      cases hp : w.editErr (plainResponseText update.username update.Duration text) "" <;>
      simp [deliveryCalls, edits, h, he, hp]

theorem progressCalls_fixed (cfg : Config) (w : World) (update : Update) (fp : String) (n : Nat) :
    ∀ a ∈ progressCalls cfg w update fp n, a.usesFixedPaths cfg := by
  simp [progressCalls, Action.usesFixedPaths]

theorem recognizeCalls_fixed (cfg : Config) (w : World) :
    ∀ a ∈ recognizeCalls cfg w (filepathJoin cfg.TempDir "voice.wav"), a.usesFixedPaths cfg := by
  by_cases h : w.pythonStderr = "" <;> simp [recognizeCalls, Action.usesFixedPaths, h]

theorem deliveryCalls_fixed (cfg : Config) (w : World) (update : Update) (text : String) :
    ∀ a ∈ deliveryCalls w update text, a.usesFixedPaths cfg := by
  by_cases h : text = ""
  · simp [deliveryCalls, Action.usesFixedPaths, h]
  · cases he : w.editErr (responseText update.username update.Duration text) "HTML" <;>
      cases hp : w.editErr (plainResponseText update.username update.Duration text) "" <;>
      simp [deliveryCalls, Action.usesFixedPaths, h, he, hp]

theorem shape_converted (cfg : Config) (w : World) (update : Update) (fs : FS)
    (fp : String) (n m : Nat)
    (h0 : ¬ update.Duration > cfg.MaxVoiceDuration)
    (h1 : w.sendErr = none) (h2 : w.mkdirErr = none) (h3 : w.getFile = Except.ok fp)
    (h4 : w.download = DownloadOutcome.ok (n + 1))
    (h5 : w.ffmpegErr = none)
    (h6 : convertedFS cfg w (n + 1) fs (filepathJoin cfg.TempDir "voice.wav") = some (m + 1))
    (h7 : w.configWriteErr = none) :
    Shape cfg w update (voiceMessageHandler cfg w update { fs := fs, trace := [] }) := by
  rw [run_converted cfg w update fs fp n m h0 h1 h2 h3 h4 h5 h6 h7]
  constructor
  · intro a ha
    simp only [List.mem_append] at ha
    rcases ha with ha | ha | ha | ha
    · exact progressCalls_fixed cfg w update fp _ a ha
    · exact recognizeCalls_fixed cfg w a ha
    · cases h8 : w.pythonErr with
      | none => rw [h8] at ha; exact deliveryCalls_fixed cfg w update _ a ha
      | some e =>
        rw [h8] at ha
        simp at ha
        rcases ha with rfl | rfl <;> simp [Action.usesFixedPaths]
    · simp at ha
      subst ha
      simp [Action.usesFixedPaths]
  · simp only [edits_append, edits_progressCalls, edits_recognizeCalls]
    cases h8 : w.pythonErr with
    | some e => left; simp [edits, htmlOnly]
    | none =>
      simp only [edits_deliveryCalls]
      by_cases h9 : w.pythonStdout = ""
      · left; simp [edits, htmlOnly, h9]
      · cases he : w.editErr (responseText update.username update.Duration w.pythonStdout) "HTML" with
        | none => left; simp [edits, htmlOnly, h9, he]
        | some e =>
          right
          refine ⟨edits (progressCalls cfg w update fp (n + 1)), ?_, by simp, ?_⟩
          · simp [edits_progressCalls, htmlOnly]
          · simp [edits_progressCalls, edits, h9, he]

/-- Every run of the handler has the shape `Shape`, whatever the world
answers. -/
theorem handler_shape (cfg : Config) (w : World) (update : Update) (fs : FS) :
    Shape cfg w update (voiceMessageHandler cfg w update { fs := fs, trace := [] }) := by
  by_cases h0 : update.Duration > cfg.MaxVoiceDuration
  · simp [Shape, voiceMessageHandler, h0, St.emit, Action.usesFixedPaths, edits, htmlOnly]
  cases h1 : w.sendErr with
  | some e =>
    simp [Shape, voiceMessageHandler, h0, h1, St.emit, Action.usesFixedPaths, edits, htmlOnly]
  | none =>
  cases h2 : w.mkdirErr with
  | some e =>
    simp [Shape, voiceMessageHandler, h0, h1, h2, St.emit, editMessageHTML,
      Action.usesFixedPaths, edits, htmlOnly]
  | none =>
  cases h3 : w.getFile with
  | error e =>
    simp [Shape, voiceMessageHandler, h0, h1, h2, h3, St.emit, editMessageHTML,
      Action.usesFixedPaths, edits, htmlOnly]
  | ok fp =>
  cases h4 : w.download with
  | getFailed e =>
    simp [Shape, voiceMessageHandler, h0, h1, h2, h3, h4, St.emit, editMessageHTML,
      downloadFile, Action.usesFixedPaths, edits, htmlOnly]
  | createFailed e =>
    simp [Shape, voiceMessageHandler, h0, h1, h2, h3, h4, St.emit, editMessageHTML,
      downloadFile, Action.usesFixedPaths, edits, htmlOnly]
  | copyFailed n e =>
    simp [Shape, voiceMessageHandler, h0, h1, h2, h3, h4, St.emit, editMessageHTML,
      downloadFile, Action.usesFixedPaths, edits, htmlOnly]
  | ok n =>
  cases n with
  | zero =>
    simp [Shape, voiceMessageHandler, h0, h1, h2, h3, h4, St.emit, editMessageHTML,
      downloadFile, osRemove, FS.write, Action.usesFixedPaths, edits, htmlOnly]
  | succ n =>
  cases h5 : w.ffmpegErr with
  | some e =>
    cases h6 : w.ffmpegWrites <;>
    simp [Shape, voiceMessageHandler, h0, h1, h2, h3, h4, h5, h6, St.emit, editMessageHTML,
      downloadFile, osRemove, convertOggToWav, FS.write, ogg_ne_wav, Action.usesFixedPaths,
      edits, htmlOnly]
  | none =>
  cases h6 : convertedFS cfg w (n + 1) fs (filepathJoin cfg.TempDir "voice.wav") with
  | none =>
    cases h6w : w.ffmpegWrites with
    | some k => simp [convertedFS, h6w, FS.write, wav_ne_ogg] at h6
    | none =>
      simp only [convertedFS, h6w, FS.write, wav_ne_ogg, if_false] at h6
      simp [Shape, voiceMessageHandler, h0, h1, h2, h3, h4, h5, h6, h6w, St.emit,
        editMessageHTML, downloadFile, osRemove, convertOggToWav, FS.write, ogg_ne_wav,
        wav_ne_ogg, Action.usesFixedPaths, edits, htmlOnly]
  | some m =>
  cases m with
  | zero =>
    cases h6w : w.ffmpegWrites with
    | some k =>
      simp [convertedFS, h6w, FS.write, wav_ne_ogg] at h6
      subst h6
      simp [Shape, voiceMessageHandler, h0, h1, h2, h3, h4, h5, h6w, St.emit,
        editMessageHTML, downloadFile, osRemove, convertOggToWav, FS.write, ogg_ne_wav,
        wav_ne_ogg, Action.usesFixedPaths, edits, htmlOnly]
    | none =>
      simp only [convertedFS, h6w, FS.write, wav_ne_ogg, if_false] at h6
      simp [Shape, voiceMessageHandler, h0, h1, h2, h3, h4, h5, h6, h6w, St.emit,
        editMessageHTML, downloadFile, osRemove, convertOggToWav, FS.write, ogg_ne_wav,
        wav_ne_ogg, Action.usesFixedPaths, edits, htmlOnly]
  | succ m =>
  cases h7 : w.configWriteErr with
  | none => exact shape_converted cfg w update fs fp n m h0 h1 h2 h3 h4 h5 h6 h7
  | some e =>
    cases h6w : w.ffmpegWrites with
    | some k =>
      simp [convertedFS, h6w, FS.write, wav_ne_ogg] at h6
      subst h6
      simp [Shape, voiceMessageHandler, h0, h1, h2, h3, h4, h5, h6w, h7, St.emit,
        editMessageHTML, downloadFile, osRemove, convertOggToWav, recognizeSpeech,
        createPythonConfig, FS.write, FS.erase, ogg_ne_wav, wav_ne_ogg,
        Action.usesFixedPaths, edits, htmlOnly]
    | none =>
      simp only [convertedFS, h6w, FS.write, wav_ne_ogg, if_false] at h6
      simp [Shape, voiceMessageHandler, h0, h1, h2, h3, h4, h5, h6, h6w, h7, St.emit,
        editMessageHTML, downloadFile, osRemove, convertOggToWav, recognizeSpeech,
        createPythonConfig, FS.write, FS.erase, ogg_ne_wav, wav_ne_ogg,
        Action.usesFixedPaths, edits, htmlOnly]

/-! ## The texts of the status message -/

theorem responseText_head (u : String) (d : Int) (t : String) :
    (responseText u d t).data.head? = some '✅' := by
  simp [responseText, String.data_append]

theorem plainResponseText_head (u : String) (d : Int) (t : String) :
    (plainResponseText u d t).data.head? = some '✅' := by
  simp [plainResponseText, String.data_append]

theorem statusText_head (u : String) (d : Int) (t : String) :
    (statusText u d t).data.head? = some '🎤' := by
  simp [statusText, String.data_append]

theorem containsText_responseText (u : String) (d : Int) (t : String) :
    containsText (responseText u d t) t := by
  unfold containsText responseText
  simp only [String.data_append]
  exact List.IsSuffix.isInfix (List.suffix_append _ _)

theorem containsText_plainResponseText (u : String) (d : Int) (t : String) :
    containsText (plainResponseText u d t) t := by
  unfold containsText plainResponseText
  simp only [String.data_append]
  exact List.IsSuffix.isInfix (List.suffix_append _ _)

/-! ## C1 -/

/-- C1: a voice message longer than the configured maximum makes the handler
perform exactly one call, the send of one new message with the rejection text,
and return; the text holds "Максимальная длительность: " followed by the
rendering of the limit and "Ваше сообщение: " followed by the rendering of the
duration.  The temp directory is untouched and no other call (no directory or
file creation, no `GetFile`, no download, no process) is made. -/
theorem C1_too_long_is_rejected_by_one_send (cfg : Config) (w : World) (update : Update)
    (s : St) (h : update.Duration > cfg.MaxVoiceDuration) :
    voiceMessageHandler cfg w update s =
      { fs := s.fs,
        trace := s.trace ++ [Action.sendMessage update.ChatID
          (rejectText cfg.MaxVoiceDuration update.Duration) "HTML"] } ∧
    containsText (rejectText cfg.MaxVoiceDuration update.Duration)
      ("Максимальная длительность: " ++ formatDuration cfg.MaxVoiceDuration) ∧
    containsText (rejectText cfg.MaxVoiceDuration update.Duration)
      ("Ваше сообщение: " ++ formatDuration update.Duration) := by
  refine ⟨by simp [voiceMessageHandler, h, St.emit], ?_, ?_⟩
  · refine ⟨("⚠️ <b>Слишком длинное голосовое сообщение</b>\n\n").data,
      ("\n" ++ "Ваше сообщение: " ++ formatDuration update.Duration).data, ?_⟩
    simp [rejectText, String.data_append]
  · refine ⟨("⚠️ <b>Слишком длинное голосовое сообщение</b>\n\n" ++
      "Максимальная длительность: " ++ formatDuration cfg.MaxVoiceDuration ++ "\n").data, [], ?_⟩
    simp [rejectText, String.data_append]

/-- C1 at a message of 45 seconds with a limit of 30: one send, with both
durations in the text. -/
theorem C1_too_long_is_rejected_by_one_send_witness :
    updLong.Duration > cfgDemo.MaxVoiceDuration ∧
    (voiceMessageHandler cfgDemo worldOk updLong stEmpty).trace =
      [Action.sendMessage 7
        "⚠️ <b>Слишком длинное голосовое сообщение</b>\n\nМаксимальная длительность: 30 сек\nВаше сообщение: 45 сек"
        "HTML"] :=
  ⟨by decide,
   (congrArg St.trace
     (C1_too_long_is_rejected_by_one_send cfgDemo worldOk updLong stEmpty (by decide)).1).trans
     (by decide)⟩

/-! ## C8 -/

/-- What `cleanup` leaves: both fixed files unlinked, two `os.Remove` calls
and no log line. -/
theorem cleanup_eq (cfg : Config) (s : St) :
    cleanup cfg s =
      { fs := (s.fs.erase (filepathJoin cfg.TempDir "voice.wav")).erase
                (filepathJoin cfg.TempDir "voice.ogg"),
        trace := s.trace ++ [Action.remove (filepathJoin cfg.TempDir "voice.wav"),
                             Action.remove (filepathJoin cfg.TempDir "voice.ogg")] } := by
  have e1 : ∀ (fs : FS) (p : String), fs p = none → fs.erase p = fs := by
    intro fs p h
    funext q
    by_cases hq : q = p <;> simp [FS.erase, hq, h]
  cases hw : s.fs (filepathJoin cfg.TempDir "voice.wav") <;>
    cases ho : s.fs (filepathJoin cfg.TempDir "voice.ogg") <;>
    simp [cleanup, osRemove, St.emit, hw, ho, OsError.isNotExist, FS.erase, ogg_ne_wav, e1]

/-- C8: for every state of the temp directory, cleanup leaves neither
`voice.wav` nor `voice.ogg` (it removes them when present), leaves every other
file as it was, reports no error whether or not the files exist (its only
calls are the two `os.Remove`, no log line), is idempotent (a second cleanup
leaves the directory exactly as the first did), and changes nothing when the
files were never created. -/
theorem C8_cleanup_removes_and_is_idempotent (cfg : Config) (s : St) :
    (cleanup cfg s).fs (filepathJoin cfg.TempDir "voice.wav") = none ∧
    (cleanup cfg s).fs (filepathJoin cfg.TempDir "voice.ogg") = none ∧
    (∀ p, p ≠ filepathJoin cfg.TempDir "voice.wav" → p ≠ filepathJoin cfg.TempDir "voice.ogg" →
      (cleanup cfg s).fs p = s.fs p) ∧
    (cleanup cfg s).trace = s.trace ++ [Action.remove (filepathJoin cfg.TempDir "voice.wav"),
      Action.remove (filepathJoin cfg.TempDir "voice.ogg")] ∧
    (cleanup cfg (cleanup cfg s)).fs = (cleanup cfg s).fs ∧
    (s.fs (filepathJoin cfg.TempDir "voice.wav") = none →
      s.fs (filepathJoin cfg.TempDir "voice.ogg") = none → (cleanup cfg s).fs = s.fs) := by
  refine ⟨?_, ?_, ?_, ?_, ?_, ?_⟩
  · simp [cleanup_eq, FS.erase, wav_ne_ogg]
  · simp [cleanup_eq, FS.erase]
  · intro p h1 h2
    simp [cleanup_eq, FS.erase, h1, h2]
  · simp [cleanup_eq]
  · rw [cleanup_eq cfg (cleanup cfg s), cleanup_eq cfg s]
    funext q
    by_cases h1 : q = filepathJoin cfg.TempDir "voice.wav" <;>
      by_cases h2 : q = filepathJoin cfg.TempDir "voice.ogg" <;> simp [FS.erase, h1, h2]
  · intro h1 h2
    rw [cleanup_eq]
    funext q
    by_cases h3 : q = filepathJoin cfg.TempDir "voice.wav" <;>
      by_cases h4 : q = filepathJoin cfg.TempDir "voice.ogg" <;> simp_all [FS.erase]

/-- C8 on a directory holding both files and a third one: both are removed,
the third stays; and on the empty directory, where nothing changes. -/
theorem C8_cleanup_removes_and_is_idempotent_witness :
    (cleanup cfgDemo
      { fs := ((FS.empty.write "/tmp/voice/voice.wav" 9).write "/tmp/voice/voice.ogg" 4).write
          "/tmp/voice/config.json" 50, trace := [] }).fs "/tmp/voice/config.json" = some 50 ∧
    (cleanup cfgDemo stEmpty).fs = stEmpty.fs :=
  ⟨(C8_cleanup_removes_and_is_idempotent cfgDemo
      { fs := ((FS.empty.write "/tmp/voice/voice.wav" 9).write "/tmp/voice/voice.ogg" 4).write
          "/tmp/voice/config.json" 50, trace := [] }).2.2.1
      "/tmp/voice/config.json" (by decide) (by decide),
   (C8_cleanup_removes_and_is_idempotent cfgDemo stEmpty).2.2.2.2.2 rfl rfl⟩

/-! ## C2 and C6: files left behind -/

/-- C2: evaluation at the failing input.  The temp directory starts with
neither file; the download fails in `io.Copy` after 5 bytes; the handler
edits the status message to the download-error text and returns, and
`voice.ogg` (5 bytes) is still there. -/
theorem C2_failed_download_leaves_source_file :
    stEmpty.fs "/tmp/voice/voice.ogg" = none ∧ stEmpty.fs "/tmp/voice/voice.wav" = none ∧
    (edits (voiceMessageHandler cfgDemo
      { worldOk with download := DownloadOutcome.copyFailed 5 "unexpected EOF" }
      updDemo stEmpty).trace).getLast? =
      some ("❌ <b>Ошибка при загрузке голосового сообщения</b>", "HTML") ∧
    (voiceMessageHandler cfgDemo
      { worldOk with download := DownloadOutcome.copyFailed 5 "unexpected EOF" }
      updDemo stEmpty).fs "/tmp/voice/voice.ogg" = some 5 := by
  decide

/-- C6: evaluation at the failing input.  The source file is fetched with
100 bytes, the transcoder exits 0 leaving a zero-byte `voice.wav`:
`convertOggToWav` returns an error, the last edit is the conversion-error
text, the recognizer is not started (the calls made are listed in full),
`voice.ogg` is removed, but the zero-byte `voice.wav` is still there when the
handler returns. -/
theorem C6_empty_output_leaves_normalized_file :
    (convertOggToWav cfgDemo { worldOk with ffmpegWrites := some 0 }
      { fs := FS.empty.write "/tmp/voice/voice.ogg" 100, trace := [] }
      "/tmp/voice/voice.ogg" "/tmp/voice/voice.wav").2 = some "FFmpeg создал пустой файл" ∧
    (edits (voiceMessageHandler cfgDemo { worldOk with ffmpegWrites := some 0 }
      updDemo stEmpty).trace).getLast? =
      some ("❌ <b>Ошибка при конвертации голосового сообщения</b>", "HTML") ∧
    (voiceMessageHandler cfgDemo { worldOk with ffmpegWrites := some 0 }
      updDemo stEmpty).trace =
      [Action.sendMessage 7
         "🎤 <b>Распознаю голосовое сообщение</b>\n👤 От: @ann\n⏱ Длительность: 10 сек\n\n<i>Пожалуйста, подождите...</i>"
         "HTML",
       Action.mkdirAll "/tmp/voice",
       Action.getFile "F1",
       Action.sleep 300,
       Action.editMessageText 7 5
         "🎤 <b>Распознаю голосовое сообщение</b>\n👤 От: @ann\n⏱ Длительность: 10 сек\n\n⏳ <i>Загружаю голосовое сообщение...</i>"
         "HTML",
       Action.httpGet "https://api.telegram.org/file/botT/voice/file_1.oga",
       Action.create "/tmp/voice/voice.ogg",
       Action.copy "/tmp/voice/voice.ogg" 100,
       Action.sleep 300,
       Action.editMessageText 7 5
         "🎤 <b>Распознаю голосовое сообщение</b>\n👤 От: @ann\n⏱ Длительность: 10 сек\n\n🔄 <i>Конвертирую аудио...</i>"
         "HTML",
       Action.exec "/usr/bin/ffmpeg"
         ["-i", "/tmp/voice/voice.ogg", "-ar", "16000", "-ac", "1", "-c:a", "pcm_s16le", "-y",
          "/tmp/voice/voice.wav"],
       Action.log "Ошибка при конвертации файла: FFmpeg создал пустой файл",
       Action.editMessageText 7 5 "❌ <b>Ошибка при конвертации голосового сообщения</b>" "HTML",
       Action.remove "/tmp/voice/voice.ogg"] ∧
    (voiceMessageHandler cfgDemo { worldOk with ffmpegWrites := some 0 }
      updDemo stEmpty).fs "/tmp/voice/voice.ogg" = none ∧
    (voiceMessageHandler cfgDemo { worldOk with ffmpegWrites := some 0 }
      updDemo stEmpty).fs "/tmp/voice/voice.wav" = some 0 := by
  decide

/-! ## C4: delivery of a transcript -/

/-- C4: for a voice message not longer than the maximum, when the initial
send, the directory creation, `GetFile` and the download succeed with a
non-empty source file, the transcoder exits 0 leaving a non-empty normalized
file, the config is written and the recognizer exits 0 with a non-empty
output `t`, the last edit of the status message is the HTML result text or,
when that edit failed, its plain-text fallback, and in both cases its text
contains `t`; when the handler returns neither `voice.ogg` nor `voice.wav`
exists. -/
theorem C4_transcript_is_delivered (cfg : Config) (w : World) (update : Update) (fs : FS)
    (fp : String) (n m : Nat)
    (h0 : update.Duration ≤ cfg.MaxVoiceDuration)
    (h1 : w.sendErr = none) (h2 : w.mkdirErr = none) (h3 : w.getFile = Except.ok fp)
    (h4 : w.download = DownloadOutcome.ok (n + 1))
    (h5 : w.ffmpegErr = none) (h6 : w.ffmpegWrites = some (m + 1))
    (h7 : w.configWriteErr = none) (h8 : w.pythonErr = none)
    (h9 : w.pythonStdout ≠ "") :
    (∃ text mode,
      (edits (voiceMessageHandler cfg w update { fs := fs, trace := [] }).trace).getLast? =
        some (text, mode) ∧
      containsText text w.pythonStdout ∧
      ((text, mode) = (responseText update.username update.Duration w.pythonStdout, "HTML") ∧
          w.editErr (responseText update.username update.Duration w.pythonStdout) "HTML" = none ∨
       (text, mode) = (plainResponseText update.username update.Duration w.pythonStdout, "") ∧
          w.editErr (responseText update.username update.Duration w.pythonStdout) "HTML" ≠ none)) ∧
    (voiceMessageHandler cfg w update { fs := fs, trace := [] }).fs
      (filepathJoin cfg.TempDir "voice.ogg") = none ∧
    (voiceMessageHandler cfg w update { fs := fs, trace := [] }).fs
      (filepathJoin cfg.TempDir "voice.wav") = none := by
  have h6' : convertedFS cfg w (n + 1) fs (filepathJoin cfg.TempDir "voice.wav") = some (m + 1) := by
    simp [convertedFS, h6, FS.write]
  rw [run_converted cfg w update fs fp n m (not_lt.mpr h0) h1 h2 h3 h4 h5 h6' h7]
  refine ⟨?_, ?_, ?_⟩
  · simp only [h8, edits_append, edits_progressCalls, edits_recognizeCalls, edits_deliveryCalls,
      h9, if_false]
    cases he : w.editErr (responseText update.username update.Duration w.pythonStdout) "HTML" with
    | none =>
      exact ⟨_, _, by simp [edits], containsText_responseText _ _ _, Or.inl ⟨rfl, rfl⟩⟩
    | some e =>
      exact ⟨_, _, by simp [edits], containsText_plainResponseText _ _ _,
        Or.inr ⟨rfl, by simp⟩⟩
  · simp [FS.erase, FS.write, ogg_ne_wav, ogg_ne_config]
  · simp [FS.erase]

/-- C4 at a message of 10 seconds whose recognizer prints "привет". -/
theorem C4_transcript_is_delivered_witness :
    (∃ text mode,
      (edits (voiceMessageHandler cfgDemo worldOk updDemo stEmpty).trace).getLast? =
        some (text, mode) ∧ containsText text "привет") ∧
    (voiceMessageHandler cfgDemo worldOk updDemo stEmpty).fs "/tmp/voice/voice.ogg" = none ∧
    (voiceMessageHandler cfgDemo worldOk updDemo stEmpty).fs "/tmp/voice/voice.wav" = none :=
  have h := C4_transcript_is_delivered cfgDemo worldOk updDemo FS.empty "voice/file_1.oga" 99 199
    (by decide) rfl rfl rfl rfl rfl rfl rfl rfl (by decide)
  ⟨h.1.elim fun text h' => h'.elim fun mode h'' => ⟨text, mode, h''.1, h''.2.1⟩, h.2.1, h.2.2⟩

/-! ## C5: the empty transcript -/

/-- C5, refuted as stated: the recognizer exits 0 and prints a single space,
which is blank (empty after trimming), yet the handler does not end with the
empty-result text: its last edit is the recognized-text result carrying the
space, and the empty-result text is never sent. -/
theorem C5_blank_transcript_is_delivered_as_result :
    isBlank " " = true ∧
    (edits (voiceMessageHandler cfgDemo { worldOk with pythonStdout := " " }
      updDemo stEmpty).trace).getLast? =
      some ("✅ <b>Распознанный текст</b>\n👤 От: @ann\n⏱ Длительность: 10 сек\n\n ", "HTML") ∧
    ("❌ <b>Не удалось распознать текст</b>", "HTML") ∉
      edits (voiceMessageHandler cfgDemo { worldOk with pythonStdout := " " }
        updDemo stEmpty).trace := by
  decide

/-- C5, amended: for every request that reaches recognition (every step up to
the conversion succeeded and the config is written), if the recognizer exits 0
and its standard output is the empty string, the last edit of the status
message is the empty-result text "Не удалось распознать текст", sent after
the four progress edits; that text differs from the recognition-error text
"Ошибка при распознавании речи", and no edit of the run is a recognized-text
result, HTML or plain. -/
theorem C5_empty_transcript_ends_with_empty_result (cfg : Config) (w : World)
    (update : Update) (fs : FS) (fp : String) (n m : Nat)
    (h0 : update.Duration ≤ cfg.MaxVoiceDuration)
    (h1 : w.sendErr = none) (h2 : w.mkdirErr = none) (h3 : w.getFile = Except.ok fp)
    (h4 : w.download = DownloadOutcome.ok (n + 1))
    (h5 : w.ffmpegErr = none) (h6 : w.ffmpegWrites = some (m + 1))
    (h7 : w.configWriteErr = none) (h8 : w.pythonErr = none)
    (h9 : w.pythonStdout = "") :
    edits (voiceMessageHandler cfg w update { fs := fs, trace := [] }).trace =
      [(statusText update.username update.Duration "⏳ <i>Загружаю голосовое сообщение...</i>", "HTML"),
       (statusText update.username update.Duration "🔄 <i>Конвертирую аудио...</i>", "HTML"),
       (statusText update.username update.Duration "💫 <i>Загружаю модель Whisper (small)...</i>", "HTML"),
       (statusText update.username update.Duration "🔍 <i>Распознаю речь...</i>", "HTML"),
       ("❌ <b>Не удалось распознать текст</b>", "HTML")] ∧
    "❌ <b>Не удалось распознать текст</b>" ≠ "❌ <b>Ошибка при распознавании речи</b>" ∧
    (∀ e ∈ edits (voiceMessageHandler cfg w update { fs := fs, trace := [] }).trace,
      ∀ t, e.1 ≠ responseText update.username update.Duration t ∧
           e.1 ≠ plainResponseText update.username update.Duration t) := by
  have h6' : convertedFS cfg w (n + 1) fs (filepathJoin cfg.TempDir "voice.wav") = some (m + 1) := by
    simp [convertedFS, h6, FS.write]
  have hE : edits (voiceMessageHandler cfg w update { fs := fs, trace := [] }).trace =
      [(statusText update.username update.Duration "⏳ <i>Загружаю голосовое сообщение...</i>", "HTML"),
       (statusText update.username update.Duration "🔄 <i>Конвертирую аудио...</i>", "HTML"),
       (statusText update.username update.Duration "💫 <i>Загружаю модель Whisper (small)...</i>", "HTML"),
       (statusText update.username update.Duration "🔍 <i>Распознаю речь...</i>", "HTML"),
       ("❌ <b>Не удалось распознать текст</b>", "HTML")] := by
    rw [run_converted cfg w update fs fp n m (not_lt.mpr h0) h1 h2 h3 h4 h5 h6' h7]
    simp only [h8, h9, edits_append, edits_progressCalls, edits_recognizeCalls,
      edits_deliveryCalls]
    simp [edits]
  refine ⟨hE, by decide, ?_⟩
  rw [hE]
  intro e he t
  have hne : ∀ x : String, x.data.head? ≠ some '✅' →
      x ≠ responseText update.username update.Duration t ∧
      x ≠ plainResponseText update.username update.Duration t := by
    intro x hx
    constructor
    · intro h; rw [h, responseText_head] at hx; exact hx rfl
    · intro h; rw [h, plainResponseText_head] at hx; exact hx rfl
  simp only [List.mem_cons, List.mem_singleton, List.not_mem_nil, or_false] at he
  rcases he with rfl | rfl | rfl | rfl | rfl
  · exact hne _ (by rw [statusText_head]; decide)
  · exact hne _ (by rw [statusText_head]; decide)
  · exact hne _ (by rw [statusText_head]; decide)
  · exact hne _ (by rw [statusText_head]; decide)
  · exact hne _ (by decide)

/-- C5 amended, at a message of 10 seconds whose recognizer prints
nothing. -/
theorem C5_empty_transcript_ends_with_empty_result_witness :
    (edits (voiceMessageHandler cfgDemo { worldOk with pythonStdout := "" }
      updDemo stEmpty).trace).getLast? =
      some ("❌ <b>Не удалось распознать текст</b>", "HTML") :=
  (congrArg List.getLast?
    (C5_empty_transcript_ends_with_empty_result cfgDemo { worldOk with pythonStdout := "" }
      updDemo FS.empty "voice/file_1.oga" 99 199
      (by decide) rfl rfl rfl rfl rfl rfl rfl rfl rfl).1).trans (by decide)

/-! ## C7: the plain-text retry -/

/-- C7, refuted as stated: the HTML edit of the first progress update fails,
yet the next edit is not a plain-text retry of it but the next progress update,
again in HTML, and so are the two after it and the result; the only plain
edit of the run is the one after the failed HTML edit of the result. -/
theorem C7_failed_progress_edit_is_not_retried :
    worldHtmlRefused.editErr
      "🎤 <b>Распознаю голосовое сообщение</b>\n👤 От: @ann\n⏱ Длительность: 10 сек\n\n⏳ <i>Загружаю голосовое сообщение...</i>"
      "HTML" = some "Bad Request" ∧
    edits (voiceMessageHandler cfgDemo worldHtmlRefused updDemo stEmpty).trace =
      [("🎤 <b>Распознаю голосовое сообщение</b>\n👤 От: @ann\n⏱ Длительность: 10 сек\n\n⏳ <i>Загружаю голосовое сообщение...</i>", "HTML"),
       ("🎤 <b>Распознаю голосовое сообщение</b>\n👤 От: @ann\n⏱ Длительность: 10 сек\n\n🔄 <i>Конвертирую аудио...</i>", "HTML"),
       ("🎤 <b>Распознаю голосовое сообщение</b>\n👤 От: @ann\n⏱ Длительность: 10 сек\n\n💫 <i>Загружаю модель Whisper (small)...</i>", "HTML"),
       ("🎤 <b>Распознаю голосовое сообщение</b>\n👤 От: @ann\n⏱ Длительность: 10 сек\n\n🔍 <i>Распознаю речь...</i>", "HTML"),
       ("✅ <b>Распознанный текст</b>\n👤 От: @ann\n⏱ Длительность: 10 сек\n\nпривет", "HTML"),
       ("✅ Распознанный текст\nОт: @ann\nДлительность: 10 сек\n\nпривет", "")] := by
  decide

/-- C7, amended: in every run, whatever edits fail, every edit of the status
message is sent in HTML, except for at most one: when the HTML edit of the
recognized-text result failed, it is followed by exactly one more edit, the
plain rendering of the same result with no parse mode, and that is the last
edit.  Failed HTML edits of progress updates and of failure texts are not
retried and do not change the format of later edits.  On a run that reaches
the delivery of a non-empty transcript the edits are the four progress
updates in HTML, the result in HTML and, exactly when that edit failed, the
plain result. -/
theorem C7_plain_retry_only_after_failed_result_edit (cfg : Config) (w : World)
    (update : Update) (fs : FS) :
    (htmlOnly (edits (voiceMessageHandler cfg w update { fs := fs, trace := [] }).trace) ∨
      ∃ pre, htmlOnly pre ∧
        (w.editErr (responseText update.username update.Duration w.pythonStdout) "HTML").isSome ∧
        edits (voiceMessageHandler cfg w update { fs := fs, trace := [] }).trace = pre ++
          [(responseText update.username update.Duration w.pythonStdout, "HTML"),
           (plainResponseText update.username update.Duration w.pythonStdout, "")]) ∧
    (∀ (fp : String) (n m : Nat), update.Duration ≤ cfg.MaxVoiceDuration →
      w.sendErr = none → w.mkdirErr = none → w.getFile = Except.ok fp →
      w.download = DownloadOutcome.ok (n + 1) →
      w.ffmpegErr = none → w.ffmpegWrites = some (m + 1) →
      w.configWriteErr = none → w.pythonErr = none → w.pythonStdout ≠ "" →
      edits (voiceMessageHandler cfg w update { fs := fs, trace := [] }).trace =
        [(statusText update.username update.Duration "⏳ <i>Загружаю голосовое сообщение...</i>", "HTML"),
         (statusText update.username update.Duration "🔄 <i>Конвертирую аудио...</i>", "HTML"),
         (statusText update.username update.Duration "💫 <i>Загружаю модель Whisper (small)...</i>", "HTML"),
         (statusText update.username update.Duration "🔍 <i>Распознаю речь...</i>", "HTML"),
         (responseText update.username update.Duration w.pythonStdout, "HTML")] ++
        (match w.editErr (responseText update.username update.Duration w.pythonStdout) "HTML" with
         | none => []
         | some _ => [(plainResponseText update.username update.Duration w.pythonStdout, "")])) := by
  refine ⟨(handler_shape cfg w update fs).2, ?_⟩
  intro fp n m h0 h1 h2 h3 h4 h5 h6 h7 h8 h9
  have h6' : convertedFS cfg w (n + 1) fs (filepathJoin cfg.TempDir "voice.wav") = some (m + 1) := by
    simp [convertedFS, h6, FS.write]
  rw [run_converted cfg w update fs fp n m (not_lt.mpr h0) h1 h2 h3 h4 h5 h6' h7]
  simp only [h8, h9, edits_append, edits_progressCalls, edits_recognizeCalls,
    edits_deliveryCalls, if_false]
  cases w.editErr (responseText update.username update.Duration w.pythonStdout) "HTML" <;>
    simp [edits]

/-- C7 amended, at the run in which every HTML edit is refused: the last edit
is the plain result. -/
theorem C7_plain_retry_only_after_failed_result_edit_witness :
    (edits (voiceMessageHandler cfgDemo worldHtmlRefused updDemo stEmpty).trace).getLast? =
      some ("✅ Распознанный текст\nОт: @ann\nДлительность: 10 сек\n\nпривет", "") :=
  (congrArg List.getLast?
    ((C7_plain_retry_only_after_failed_result_edit cfgDemo worldHtmlRefused updDemo FS.empty).2
      "voice/file_1.oga" 99 199 (by decide) rfl rfl rfl rfl rfl rfl rfl rfl (by decide))).trans
    (by decide)

/-! ## C3: the temp paths -/

/-- C3, refuted as stated: two requests with distinct update ids (and distinct
chats, senders and files) are given the same source path and the same
normalized path: each run creates `/tmp/voice/voice.ogg` and has the
transcoder write `/tmp/voice/voice.wav`. -/
theorem C3_distinct_requests_share_paths :
    updDemo.UpdateID ≠ updOther.UpdateID ∧
    Action.create "/tmp/voice/voice.ogg" ∈
      (voiceMessageHandler cfgDemo worldOk updDemo stEmpty).trace ∧
    Action.create "/tmp/voice/voice.ogg" ∈
      (voiceMessageHandler cfgDemo worldOk updOther stEmpty).trace ∧
    Action.exec "/usr/bin/ffmpeg"
      ["-i", "/tmp/voice/voice.ogg", "-ar", "16000", "-ac", "1", "-c:a", "pcm_s16le", "-y",
       "/tmp/voice/voice.wav"] ∈ (voiceMessageHandler cfgDemo worldOk updDemo stEmpty).trace ∧
    Action.exec "/usr/bin/ffmpeg"
      ["-i", "/tmp/voice/voice.ogg", "-ar", "16000", "-ac", "1", "-c:a", "pcm_s16le", "-y",
       "/tmp/voice/voice.wav"] ∈ (voiceMessageHandler cfgDemo worldOk updOther stEmpty).trace := by
  decide

/-- C3, amended: the temp paths do not depend on the request.  In every run,
for every request, each file the handler creates, copies into or removes, and
each file named to the transcoder or the recognizer, is one of the fixed paths
`TempDir/voice.ogg` (source) and `TempDir/voice.wav` (normalized), the
recognizer's config being `TempDir/config.json`; the source path and the
normalized path differ from each other. -/
theorem C3_temp_paths_are_fixed (cfg : Config) (w : World) (update : Update) (fs : FS) :
    (∀ a ∈ (voiceMessageHandler cfg w update { fs := fs, trace := [] }).trace,
      a.usesFixedPaths cfg) ∧
    filepathJoin cfg.TempDir "voice.ogg" ≠ filepathJoin cfg.TempDir "voice.wav" :=
  ⟨(handler_shape cfg w update fs).1, ogg_ne_wav cfg.TempDir⟩

/-- C3 amended, at the second request: the file its run creates is the fixed
source path, and the file it removes last is the fixed normalized path. -/
theorem C3_temp_paths_are_fixed_witness :
    (Action.create "/tmp/voice/voice.ogg").usesFixedPaths cfgDemo ∧
    (Action.remove "/tmp/voice/voice.wav").usesFixedPaths cfgDemo :=
  ⟨(C3_temp_paths_are_fixed cfgDemo worldOk updOther FS.empty).1 _ (by decide),
   (C3_temp_paths_are_fixed cfgDemo worldOk updOther FS.empty).1 _ (by decide)⟩

end VoceBot
